import Mathlib

/-!
Shallow embedding of `src/lib/trmnl-api.ts` (TRMNL web client API layer).

The TypeScript module keeps all session state in `localStorage`, one JSON
value per key.  We model the store (`Storage`) as one optional slot per key
(`none` = key absent), `getState` as the defaulting reader, and `updateState`
as the partial writer.  Network calls are modelled by outcome oracles passed
as arguments (`MetaOutcome` for the authenticated metadata request,
`ImageOutcome` for the raw image download, `DevicesOutcome` for the device
list); each operation also returns the list of HTTP requests it issued, so
that "no network call" claims are statable.  JavaScript truthiness on
strings and numbers (empty string and `0` are falsy) is modelled explicitly
by the `strOr` / `optStrOr` / `optNatOr` / `numTruthy` helpers.  `Date.now()`
is modelled as an explicit `now : Nat` argument (epoch milliseconds).
-/

set_option linter.unusedVariables false

namespace Trmnl

/-- `Environment` from the source: selects the API host. -/
inductive Environment where
  | development
  | production
deriving DecidableEq

/-- `HOSTS` from the source. -/
def hostFor : Environment → String
  | .development => "http://localhost:3000"
  | .production => "https://usetrmnl.com"

/-- `DEFAULT_REFRESH_RATE = 30` seconds. -/
def DEFAULT_REFRESH_RATE : Nat := 30

/-- `Device` record from the source. -/
structure Device where
  id : String
  name : String
  api_key : String
  friendly_id : Option String := none
deriving DecidableEq

/-- `CurrentImage` record from the source. -/
structure CurrentImage where
  url : String
  originalUrl : String
  filename : String
  timestamp : Nat
deriving DecidableEq

/-- `TrmnlState` record from the source (the value `getState()` returns). -/
structure TrmnlState where
  environment : Environment
  devices : List Device
  selectedDevice : Option Device
  currentImage : Option CurrentImage
  lastFetch : Option Nat
  nextFetch : Option Nat
  refreshRate : Nat
  retryCount : Nat
  retryAfter : Option Nat
deriving DecidableEq

/-- The `localStorage` store behind `STORAGE_KEYS`: each key is either absent
(`none`) or holds a stored JSON value.  `firstSetupComplete` stores the
`Record<string, boolean>` map, modelled as a function. -/
structure Storage where
  environment : Option Environment := none
  devices : Option (List Device) := none
  selectedDevice : Option (Option Device) := none
  currentImage : Option (Option CurrentImage) := none
  lastFetch : Option (Option Nat) := none
  nextFetch : Option (Option Nat) := none
  refreshRate : Option Nat := none
  retryCount : Option Nat := none
  retryAfter : Option (Option Nat) := none
  firstSetupComplete : Option (String → Bool) := none

/-- `getState()`: read every key, substituting the documented defaults for
absent keys (production, `[]`, `null`, `null`, `null`, `null`, 30, 0, `null`). -/
def getState (st : Storage) : TrmnlState where
  environment := st.environment.getD .production
  devices := st.devices.getD []
  selectedDevice := st.selectedDevice.getD none
  currentImage := st.currentImage.getD none
  lastFetch := st.lastFetch.getD none
  nextFetch := st.nextFetch.getD none
  refreshRate := st.refreshRate.getD DEFAULT_REFRESH_RATE
  retryCount := st.retryCount.getD 0
  retryAfter := st.retryAfter.getD none

/-- A `Partial<TrmnlState>` argument of `updateState`: `none` means the key is
absent (`undefined`) and must not be written. -/
structure StatePatch where
  environment : Option Environment := none
  devices : Option (List Device) := none
  selectedDevice : Option (Option Device) := none
  currentImage : Option (Option CurrentImage) := none
  lastFetch : Option (Option Nat) := none
  nextFetch : Option (Option Nat) := none
  refreshRate : Option Nat := none
  retryCount : Option Nat := none
  retryAfter : Option (Option Nat) := none

/-- One `if (updates.x !== undefined) setStorageItem(keys.x, updates.x)` step. -/
def setIf {α : Type} (u : Option α) (old : Option α) : Option α :=
  match u with
  | some v => some v
  | none => old

/-- The nine conditional writes of `updateState` (each to its own key;
`firstSetupComplete` is never written by `updateState`). -/
def applyUpdates (u : StatePatch) (st : Storage) : Storage where
  environment := setIf u.environment st.environment
  devices := setIf u.devices st.devices
  selectedDevice := setIf u.selectedDevice st.selectedDevice
  currentImage := setIf u.currentImage st.currentImage
  lastFetch := setIf u.lastFetch st.lastFetch
  nextFetch := setIf u.nextFetch st.nextFetch
  refreshRate := setIf u.refreshRate st.refreshRate
  retryCount := setIf u.retryCount st.retryCount
  retryAfter := setIf u.retryAfter st.retryAfter
  firstSetupComplete := st.firstSetupComplete

/-- `updateState(updates)`: write the present fields, then return `getState()`. -/
def updateState (u : StatePatch) (st : Storage) : Storage × TrmnlState :=
  let st' := applyUpdates u st
  (st', getState st')

/-- `getBaseUrl`: `HOSTS[environment] || HOSTS.production` (total over the enum). -/
def getBaseUrl (e : Environment) : String := hostFor e

/-- `getDevicesUrl`. -/
def getDevicesUrl (e : Environment) : String := getBaseUrl e ++ "/devices.json"

/-- `getApiUrl`. -/
def getApiUrl (e : Environment) : String := getBaseUrl e ++ "/api/current_screen"

/-- `getLoginUrl`. -/
def getLoginUrl (e : Environment) : String := getBaseUrl e ++ "/login"

/-- JavaScript `s || d` on strings: the empty string is falsy. -/
def strOr (s d : String) : String := if s = "" then d else s

/-- JavaScript `x || d` where `x` is a possibly-absent string field. -/
def optStrOr (s : Option String) (d : String) : String :=
  match s with
  | none => d
  | some s => strOr s d

/-- JavaScript `n || d` where `n` is a possibly-absent number field: `0` is falsy. -/
def optNatOr (n : Option Nat) (d : Nat) : Nat :=
  match n with
  | none => d
  | some n => if n = 0 then d else n

/-- JavaScript truthiness of a nullable number (`null`, `undefined` and `0` are falsy). -/
def numTruthy : Option Nat → Bool
  | none => false
  | some n => n != 0

/-- JavaScript `currentImage?.url || null` (used on the backoff, 429 and catch paths). -/
def cachedUrlOrNull (ci : Option CurrentImage) : Option String :=
  match ci with
  | none => none
  | some c => if c.url = "" then none else some c.url

/-- `response.ok`: status in the inclusive range 200–299. -/
def statusOk (s : Nat) : Bool := decide (200 ≤ s) && decide (s ≤ 299)

/-- The guard `retryAfter && Date.now() < retryAfter` at the head of the two
polling reads. -/
def backoffActive (retryAfter : Option Nat) (now : Nat) : Bool :=
  match retryAfter with
  | none => false
  | some ra => (ra != 0) && decide (now < ra)

/-- JSON body `{image_url, filename?, refresh_rate?}` of the metadata endpoints. -/
structure ScreenData where
  image_url : String
  filename : Option String := none
  refresh_rate : Option Nat := none
deriving DecidableEq

/-- Outcome of the authenticated metadata request: a network-level failure
(`fetch` rejects), or an HTTP response with a status and a body (`none` body
means `response.json()` throws). -/
inductive MetaOutcome where
  | netError
  | resp (status : Nat) (body : Option ScreenData)
deriving DecidableEq

/-- Outcome of the raw image download: a network-level failure (covering a
rejected `fetch`, `blob()` or `FileReader` error), or a response with its
`ok` flag and the data URL the blob converts to. -/
inductive ImageOutcome where
  | netError
  | resp (ok : Bool) (dataUrl : String)
deriving DecidableEq

/-- Outcome of the credentialed `devices.json` request. -/
inductive DevicesOutcome where
  | netError
  | resp (status : Nat) (body : Option (List Device))
deriving DecidableEq

/-- An HTTP request issued by an operation: an authenticated metadata request
to `url`, or a plain image-byte download from `url`. -/
inductive Request where
  | meta (url : String)
  | image (url : String)
deriving DecidableEq

/-- Result of one polling read: the resolved value, the store after the call,
and the requests issued (in order). -/
structure FetchResult where
  result : Option String
  store : Storage
  requests : List Request

/-- `hasCompletedFirstSetup(deviceId)`: read the map (default `{}`) and test
`map[deviceId] === true`. -/
def hasCompletedFirstSetup (st : Storage) (deviceId : String) : Bool :=
  (st.firstSetupComplete.getD (fun _ => false)) deviceId

/-- `markFirstSetupComplete(deviceId)`: read the map, set `map[deviceId] = true`,
store it back. -/
def markFirstSetupComplete (st : Storage) (deviceId : String) : Storage :=
  let m := st.firstSetupComplete.getD (fun _ => false)
  { st with firstSetupComplete := some (fun k => if k = deviceId then true else m k) }

/-- The exponential-backoff write shared by the 429 branches and the catch
blocks of both polling reads: increment the snapshot `retryCount`, compute
`min(1000 * 2^newRetryCount, 300000)` and store `retryAfter = now + backoffMs`. -/
def recordBackoff (st : Storage) (retryCount : Nat) (now : Nat) : Storage :=
  let newRetryCount := retryCount + 1
  let backoffMs := min (1000 * 2 ^ newRetryCount) 300000
  let retryAfterTime := now + backoffMs
  (updateState { retryCount := some newRetryCount,
                 retryAfter := some (some retryAfterTime) } st).1

/-- The catch block of `fetchImage` (record backoff, resolve to
`currentImage?.url || null` using the initial snapshot). -/
def fetchImageCatch (st : Storage) (retryCount : Nat) (currentImage : Option CurrentImage)
    (now : Nat) (reqs : List Request) : FetchResult where
  result := cachedUrlOrNull currentImage
  store := recordBackoff st retryCount now
  requests := reqs

/-- The tail of `fetchImage` that downloads the image bytes, stores the new
image record together with `lastFetch`/`nextFetch`/`refreshRate` and the retry
reset, and marks first setup complete on success. -/
def fetchImageDownload (st : Storage) (retryCount : Nat) (currentImage : Option CurrentImage)
    (now : Nat) (reqs : List Request) (imageUrl filename : String) (refreshRate : Nat)
    (isFirstSetup : Bool) (deviceId : String) (img : ImageOutcome) : FetchResult :=
  let reqs := reqs ++ [Request.image imageUrl]
  match img with
  | .netError => fetchImageCatch st retryCount currentImage now reqs
  | .resp ok dataUrl =>
    if !ok then fetchImageCatch st retryCount currentImage now reqs
    else
      let nextFetch := now + refreshRate * 1000
      let st := (updateState
        { currentImage := some (some { url := dataUrl, originalUrl := imageUrl,
                                       filename := filename, timestamp := now }),
          lastFetch := some (some now),
          nextFetch := some (some nextFetch),
          refreshRate := some refreshRate,
          retryCount := some 0,
          retryAfter := some none } st).1
      let st := if isFirstSetup then markFirstSetupComplete st deviceId else st
      { result := some dataUrl, store := st, requests := reqs }

/-- `fetchImage(forceRefresh)`: the primary polling read of the current screen. -/
def fetchImage (st : Storage) (forceRefresh : Bool) (now : Nat)
    (meta : MetaOutcome) (img : ImageOutcome) : FetchResult :=
  let state := getState st
  if backoffActive state.retryAfter now && !forceRefresh then
    { result := cachedUrlOrNull state.currentImage, store := st, requests := [] }
  else
    match state.selectedDevice with
    | none => { result := none, store := st, requests := [] }
    | some dev =>
      if dev.api_key = "" then { result := none, store := st, requests := [] }
      else
        let deviceId := strOr dev.id "unknown"
        let isFirstSetup := ! hasCompletedFirstSetup st deviceId
        let apiUrl := if isFirstSetup
          then getBaseUrl state.environment ++ "/api/display"
          else getApiUrl state.environment
        let reqs := [Request.meta apiUrl]
        match meta with
        | .netError => fetchImageCatch st state.retryCount state.currentImage now reqs
        | .resp status body =>
          if status = 401 || status = 403 then
            { result := none,
              store := (updateState { retryCount := some 0, retryAfter := some none } st).1,
              requests := reqs }
          else if status = 429 then
            { result := cachedUrlOrNull state.currentImage,
              store := recordBackoff st state.retryCount now,
              requests := reqs }
          else if ! statusOk status then
            fetchImageCatch st state.retryCount state.currentImage now reqs
          else
            match body with
            | none => fetchImageCatch st state.retryCount state.currentImage now reqs
            | some data =>
              let imageUrl := data.image_url
              let filename := optStrOr data.filename "display.jpg"
              let refreshRate := optNatOr data.refresh_rate DEFAULT_REFRESH_RATE
              match state.currentImage with
              | some ci =>
                if !forceRefresh && ci.originalUrl == imageUrl then
                  let nextFetch := now + refreshRate * 1000
                  let st := (updateState
                    { refreshRate := some refreshRate,
                      lastFetch := some (some now),
                      nextFetch := some (some nextFetch),
                      retryCount := some 0,
                      retryAfter := some none } st).1
                  { result := some ci.url, store := st, requests := reqs }
                else
                  fetchImageDownload st state.retryCount state.currentImage now reqs
                    imageUrl filename refreshRate isFirstSetup deviceId img
              | none =>
                fetchImageDownload st state.retryCount state.currentImage now reqs
                  imageUrl filename refreshRate isFirstSetup deviceId img

/-- `fetchNextScreen()`: the screen-advancing read; resolves to `null` on every
failure path (backoff window, missing key, 401/403, 429, throw). -/
def fetchNextScreen (st : Storage) (now : Nat)
    (meta : MetaOutcome) (img : ImageOutcome) : FetchResult :=
  let state := getState st
  if backoffActive state.retryAfter now then
    { result := none, store := st, requests := [] }
  else
    match state.selectedDevice with
    | none => { result := none, store := st, requests := [] }
    | some dev =>
      if dev.api_key = "" then { result := none, store := st, requests := [] }
      else
        let apiUrl := getBaseUrl state.environment ++ "/api/display"
        let reqs := [Request.meta apiUrl]
        match meta with
        | .netError =>
          { result := none, store := recordBackoff st state.retryCount now, requests := reqs }
        | .resp status body =>
          if status = 401 || status = 403 then
            { result := none,
              store := (updateState { retryCount := some 0, retryAfter := some none } st).1,
              requests := reqs }
          else if status = 429 then
            { result := none, store := recordBackoff st state.retryCount now, requests := reqs }
          else if ! statusOk status then
            { result := none, store := recordBackoff st state.retryCount now, requests := reqs }
          else
            match body with
            | none =>
              { result := none, store := recordBackoff st state.retryCount now, requests := reqs }
            | some data =>
              let imageUrl := data.image_url
              let filename := optStrOr data.filename "display.jpg"
              let refreshRate := optNatOr data.refresh_rate DEFAULT_REFRESH_RATE
              let reqs := reqs ++ [Request.image imageUrl]
              match img with
              | .netError =>
                { result := none, store := recordBackoff st state.retryCount now, requests := reqs }
              | .resp ok dataUrl =>
                if !ok then
                  { result := none, store := recordBackoff st state.retryCount now, requests := reqs }
                else
                  let nextFetch := now + refreshRate * 1000
                  let st := (updateState
                    { currentImage := some (some { url := dataUrl, originalUrl := imageUrl,
                                                   filename := filename, timestamp := now }),
                      lastFetch := some (some now),
                      nextFetch := some (some nextFetch),
                      refreshRate := some refreshRate,
                      retryCount := some 0,
                      retryAfter := some none } st).1
                  { result := some dataUrl, store := st, requests := reqs }

/-- `triggerSpecialFunction()`: returns a success flag; never writes the store.
The non-2xx throw is caught by its own catch block, which resolves to `false`. -/
def triggerSpecialFunction (st : Storage) (meta : MetaOutcome) :
    Bool × Storage × List Request :=
  let state := getState st
  match state.selectedDevice with
  | none => (false, st, [])
  | some dev =>
    if dev.api_key = "" then (false, st, [])
    else
      let reqs := [Request.meta (getBaseUrl state.environment ++ "/api/display")]
      match meta with
      | .netError => (false, st, reqs)
      | .resp status _ =>
        if status = 401 || status = 403 then (false, st, reqs)
        else if ! statusOk status then (false, st, reqs)
        else (true, st, reqs)

/-- `fetchDevices(environment)`: list the user's devices with cookie auth,
falling back to the cached list (when nonempty) on every failure path; on
success store the list and auto-select the first device if none is selected. -/
def fetchDevices (e : Environment) (st : Storage) (o : DevicesOutcome) :
    Option (List Device) × Storage :=
  let storedDevices := st.devices.getD []
  let fallback : Option (List Device) :=
    if storedDevices.length > 0 then some storedDevices else none
  match o with
  | .netError => (fallback, st)
  | .resp status body =>
    if status = 401 || status = 403 then (fallback, st)
    else if ! statusOk status then (fallback, st)
    else
      match body with
      | none => (fallback, st)
      | some devices =>
        let st := (updateState { devices := some devices } st).1
        let state := getState st
        let st :=
          match state.selectedDevice, devices with
          | none, d :: _ => (updateState { selectedDevice := some (some d) } st).1
          | _, _ => st
        (some devices, st)

/-- `selectDevice(device)`: set the selection and reset the retry state. -/
def selectDevice (st : Storage) (device : Device) : Storage :=
  (updateState { selectedDevice := some (some device),
                 retryCount := some 0,
                 retryAfter := some none } st).1

/-- `setEnvironment(environment)`. -/
def setEnvironment (st : Storage) (e : Environment) : Storage :=
  (updateState { environment := some e } st).1

/-- `n.toString().padStart(2, "0")` for a natural number. -/
def pad (n : Nat) : String :=
  let s := toString n
  if s.length < 2 then "0" ++ s else s

/-- `formatTimeRemaining(nextFetch)`: the countdown formatter.  Note the JS
guard `if (!nextFetch)` also fires on `nextFetch = 0` (zero is falsy). -/
def formatTimeRemaining (nextFetch : Option Nat) (now : Nat) : String :=
  if !numTruthy nextFetch then "Unknown"
  else
    let nf := nextFetch.getD 0
    let remaining := (max 0 ((nf : Int) - (now : Int))).toNat
    let totalSeconds := remaining / 1000
    let hours := totalSeconds / 3600
    let minutes := (totalSeconds % 3600) / 60
    let seconds := totalSeconds % 60
    if hours > 0 then pad hours ++ ":" ++ pad minutes ++ ":" ++ pad seconds
    else pad minutes ++ ":" ++ pad seconds

/-- Modelled from the spec (§4.3): when `nextFetch` is absent show the
"unknown" placeholder; otherwise format the remaining time `nextFetch - now`,
floored at zero, as zero-padded `HH:MM:SS` when at least one hour remains and
as zero-padded `MM:SS` otherwise. -/
def formatTimeRemainingSpec (nextFetch : Option Nat) (now : Nat) : String :=
  match nextFetch with
  | none => "Unknown"
  | some nf =>
    let totalSeconds := (nf - now) / 1000
    if 3600 ≤ totalSeconds then
      pad (totalSeconds / 3600) ++ ":" ++ pad (totalSeconds % 3600 / 60) ++ ":"
        ++ pad (totalSeconds % 60)
    else
      pad (totalSeconds / 60) ++ ":" ++ pad (totalSeconds % 60)

/-! ## Path characterizations

Reduction lemmas for each control-flow path of the two polling reads, under
explicit hypotheses for the guards.  They are shared by several claims. -/

/-- The metadata URL `fetchImage` targets: the generate/display endpoint while
first setup is incomplete for the selected device, else the current-screen
endpoint (source lines 377–383). -/
def fetchImageUrl (st : Storage) (dev : Device) : String :=
  if ! hasCompletedFirstSetup st (strOr dev.id "unknown")
  then getBaseUrl (getState st).environment ++ "/api/display"
  else getApiUrl (getState st).environment

/-- The unchanged-image test of `fetchImage` (source lines 431–435):
`!forceRefresh && currentImage && currentImage.originalUrl === imageUrl`. -/
def unchangedCheck (ci : Option CurrentImage) (fr : Bool) (d : ScreenData) : Bool :=
  match ci with
  | some c => !fr && c.originalUrl == d.image_url
  | none => false

/-- A metadata outcome that ends the attempt in the backoff-recording code:
a network-level failure, a 429, another non-2xx status that is not 401/403,
or a 2xx whose JSON body fails to parse. -/
def metaFails : MetaOutcome → Bool
  | .netError => true
  | .resp code body =>
    if code = 401 ∨ code = 403 then false
    else if code = 429 then true
    else if statusOk code then body.isNone else true

/-- An image-download outcome that throws (rejected fetch or non-ok response). -/
def imageFails : ImageOutcome → Bool
  | .netError => true
  | .resp ok _ => !ok

/-- The `/api/display` URL `fetchNextScreen` and `triggerSpecialFunction` target. -/
def nextScreenUrl (st : Storage) : String :=
  getBaseUrl (getState st).environment ++ "/api/display"

/-- The single logical update of the full-success path (source lines 461–473
and 288–300): new image record, `lastFetch`, `nextFetch`, `refreshRate`, retry
reset. -/
def successPatch (d : ScreenData) (u : String) (now : Nat) : StatePatch where
  currentImage := some (some { url := u, originalUrl := d.image_url,
                               filename := optStrOr d.filename "display.jpg",
                               timestamp := now })
  lastFetch := some (some now)
  nextFetch := some (some (now + optNatOr d.refresh_rate DEFAULT_REFRESH_RATE * 1000))
  refreshRate := some (optNatOr d.refresh_rate DEFAULT_REFRESH_RATE)
  retryCount := some 0
  retryAfter := some none

lemma fetchImage_metaFailure (st : Storage) (fr : Bool) (now : Nat)
    (meta : MetaOutcome) (img : ImageOutcome) (dev : Device)
    (hguard : (backoffActive (getState st).retryAfter now && !fr) = false)
    (hdev : (getState st).selectedDevice = some dev)
    (hkey : dev.api_key ≠ "")
    (hfail : metaFails meta = true) :
    fetchImage st fr now meta img =
      { result := cachedUrlOrNull (getState st).currentImage,
        store := recordBackoff st (getState st).retryCount now,
        requests := [Request.meta (fetchImageUrl st dev)] } := by
  cases meta with
  | netError =>
    simp [fetchImage, hguard, hdev, hkey, fetchImageCatch, fetchImageUrl]
  | resp code body =>
    simp only [metaFails] at hfail
    rcases Decidable.em (code = 401 ∨ code = 403) with h1 | h1
    · rw [if_pos h1] at hfail; exact absurd hfail (by simp)
    · rw [if_neg h1] at hfail
      push_neg at h1
      obtain ⟨h401, h403⟩ := h1
      by_cases h2 : code = 429
      · subst h2
        simp [fetchImage, hguard, hdev, hkey, fetchImageCatch, fetchImageUrl]
      · rw [if_neg h2] at hfail
        by_cases hok : statusOk code = true
        · rw [if_pos hok] at hfail
          have hb : body = none := by cases body <;> simp_all
          subst hb
          simp [fetchImage, hguard, hdev, hkey, hok, h401, h403, h2,
            fetchImageCatch, fetchImageUrl]
        · have hok' : statusOk code = false := by simpa using hok
          simp [fetchImage, hguard, hdev, hkey, hok', h401, h403, h2,
            fetchImageCatch, fetchImageUrl]

lemma fetchImage_unauthorized (st : Storage) (fr : Bool) (now code : Nat)
    (body : Option ScreenData) (img : ImageOutcome) (dev : Device)
    (hguard : (backoffActive (getState st).retryAfter now && !fr) = false)
    (hdev : (getState st).selectedDevice = some dev)
    (hkey : dev.api_key ≠ "")
    (hcode : code = 401 ∨ code = 403) :
    fetchImage st fr now (.resp code body) img =
      { result := none,
        store := applyUpdates { retryCount := some 0, retryAfter := some none } st,
        requests := [Request.meta (fetchImageUrl st dev)] } := by
  rcases hcode with rfl | rfl <;>
    simp [fetchImage, hguard, hdev, hkey, updateState, fetchImageUrl]

lemma fetchImage_unchanged (st : Storage) (fr : Bool) (now code : Nat) (d : ScreenData)
    (img : ImageOutcome) (dev : Device) (ci : CurrentImage)
    (hguard : (backoffActive (getState st).retryAfter now && !fr) = false)
    (hdev : (getState st).selectedDevice = some dev)
    (hkey : dev.api_key ≠ "")
    (hok : statusOk code = true)
    (hci : (getState st).currentImage = some ci)
    (hchg : unchangedCheck (getState st).currentImage fr d = true) :
    fetchImage st fr now (.resp code (some d)) img =
      { result := some ci.url,
        store := applyUpdates
          { refreshRate := some (optNatOr d.refresh_rate DEFAULT_REFRESH_RATE),
            lastFetch := some (some now),
            nextFetch := some (some (now + optNatOr d.refresh_rate DEFAULT_REFRESH_RATE * 1000)),
            retryCount := some 0,
            retryAfter := some none } st,
        requests := [Request.meta (fetchImageUrl st dev)] } := by
  have hcode : 200 ≤ code ∧ code ≤ 299 := by
    simpa [statusOk] using hok
  have h401 : code ≠ 401 := by omega
  have h403 : code ≠ 403 := by omega
  have h429 : code ≠ 429 := by omega
  rw [hci] at hchg
  simp only [unchangedCheck] at hchg
  simp [fetchImage, hguard, hdev, hkey, hci, hok, h401, h403, h429, hchg,
    updateState, fetchImageUrl]

lemma fetchImage_success (st : Storage) (fr : Bool) (now code : Nat) (d : ScreenData)
    (u : String) (dev : Device)
    (hguard : (backoffActive (getState st).retryAfter now && !fr) = false)
    (hdev : (getState st).selectedDevice = some dev)
    (hkey : dev.api_key ≠ "")
    (hok : statusOk code = true)
    (hchg : unchangedCheck (getState st).currentImage fr d = false) :
    fetchImage st fr now (.resp code (some d)) (.resp true u) =
      { result := some u,
        store :=
          if ! hasCompletedFirstSetup st (strOr dev.id "unknown")
          then markFirstSetupComplete (applyUpdates (successPatch d u now) st)
                 (strOr dev.id "unknown")
          else applyUpdates (successPatch d u now) st,
        requests := [Request.meta (fetchImageUrl st dev), Request.image d.image_url] } := by
  have hcode : 200 ≤ code ∧ code ≤ 299 := by
    simpa [statusOk] using hok
  have h401 : code ≠ 401 := by omega
  have h403 : code ≠ 403 := by omega
  have h429 : code ≠ 429 := by omega
  cases hci : (getState st).currentImage with
  | none =>
    simp [fetchImage, hguard, hdev, hkey, hci, hok, h401, h403, h429,
      fetchImageDownload, successPatch, updateState, fetchImageUrl]
  | some ci =>
    rw [hci] at hchg
    simp only [unchangedCheck] at hchg
    simp [fetchImage, hguard, hdev, hkey, hci, hok, h401, h403, h429, hchg,
      fetchImageDownload, successPatch, updateState, fetchImageUrl]

lemma fetchImage_imageFailure (st : Storage) (fr : Bool) (now code : Nat) (d : ScreenData)
    (img : ImageOutcome) (dev : Device)
    (hguard : (backoffActive (getState st).retryAfter now && !fr) = false)
    (hdev : (getState st).selectedDevice = some dev)
    (hkey : dev.api_key ≠ "")
    (hok : statusOk code = true)
    (hchg : unchangedCheck (getState st).currentImage fr d = false)
    (himg : imageFails img = true) :
    fetchImage st fr now (.resp code (some d)) img =
      { result := cachedUrlOrNull (getState st).currentImage,
        store := recordBackoff st (getState st).retryCount now,
        requests := [Request.meta (fetchImageUrl st dev), Request.image d.image_url] } := by
  have hcode : 200 ≤ code ∧ code ≤ 299 := by
    simpa [statusOk] using hok
  have h401 : code ≠ 401 := by omega
  have h403 : code ≠ 403 := by omega
  have h429 : code ≠ 429 := by omega
  cases hci : (getState st).currentImage with
  | none =>
    cases img with
    | netError =>
      simp [fetchImage, hguard, hdev, hkey, hci, hok, h401, h403, h429,
        fetchImageDownload, fetchImageCatch, fetchImageUrl]
    | resp ok dataUrl =>
      simp only [imageFails] at himg
      simp [fetchImage, hguard, hdev, hkey, hci, hok, h401, h403, h429, himg,
        fetchImageDownload, fetchImageCatch, fetchImageUrl]
  | some ci =>
    rw [hci] at hchg
    simp only [unchangedCheck] at hchg
    cases img with
    | netError =>
      simp [fetchImage, hguard, hdev, hkey, hci, hok, h401, h403, h429, hchg,
        fetchImageDownload, fetchImageCatch, fetchImageUrl]
    | resp ok dataUrl =>
      simp only [imageFails] at himg
      simp [fetchImage, hguard, hdev, hkey, hci, hok, h401, h403, h429, hchg, himg,
        fetchImageDownload, fetchImageCatch, fetchImageUrl]

lemma fetchNextScreen_metaFailure (st : Storage) (now : Nat)
    (meta : MetaOutcome) (img : ImageOutcome) (dev : Device)
    (hguard : backoffActive (getState st).retryAfter now = false)
    (hdev : (getState st).selectedDevice = some dev)
    (hkey : dev.api_key ≠ "")
    (hfail : metaFails meta = true) :
    fetchNextScreen st now meta img =
      { result := none,
        store := recordBackoff st (getState st).retryCount now,
        requests := [Request.meta (nextScreenUrl st)] } := by
  cases meta with
  | netError =>
    simp [fetchNextScreen, hguard, hdev, hkey, nextScreenUrl]
  | resp code body =>
    simp only [metaFails] at hfail
    rcases Decidable.em (code = 401 ∨ code = 403) with h1 | h1
    · rw [if_pos h1] at hfail; exact absurd hfail (by simp)
    · rw [if_neg h1] at hfail
      push_neg at h1
      obtain ⟨h401, h403⟩ := h1
      by_cases h2 : code = 429
      · subst h2
        simp [fetchNextScreen, hguard, hdev, hkey, nextScreenUrl]
      · rw [if_neg h2] at hfail
        by_cases hok : statusOk code = true
        · rw [if_pos hok] at hfail
          have hb : body = none := by cases body <;> simp_all
          subst hb
          simp [fetchNextScreen, hguard, hdev, hkey, hok, h401, h403, h2, nextScreenUrl]
        · have hok' : statusOk code = false := by simpa using hok
          simp [fetchNextScreen, hguard, hdev, hkey, hok', h401, h403, h2, nextScreenUrl]

lemma fetchNextScreen_unauthorized (st : Storage) (now code : Nat)
    (body : Option ScreenData) (img : ImageOutcome) (dev : Device)
    (hguard : backoffActive (getState st).retryAfter now = false)
    (hdev : (getState st).selectedDevice = some dev)
    (hkey : dev.api_key ≠ "")
    (hcode : code = 401 ∨ code = 403) :
    fetchNextScreen st now (.resp code body) img =
      { result := none,
        store := applyUpdates { retryCount := some 0, retryAfter := some none } st,
        requests := [Request.meta (nextScreenUrl st)] } := by
  rcases hcode with rfl | rfl <;>
    simp [fetchNextScreen, hguard, hdev, hkey, updateState, nextScreenUrl]

lemma fetchNextScreen_success (st : Storage) (now code : Nat) (d : ScreenData)
    (u : String) (dev : Device)
    (hguard : backoffActive (getState st).retryAfter now = false)
    (hdev : (getState st).selectedDevice = some dev)
    (hkey : dev.api_key ≠ "")
    (hok : statusOk code = true) :
    fetchNextScreen st now (.resp code (some d)) (.resp true u) =
      { result := some u,
        store := applyUpdates (successPatch d u now) st,
        requests := [Request.meta (nextScreenUrl st), Request.image d.image_url] } := by
  have hcode : 200 ≤ code ∧ code ≤ 299 := by
    simpa [statusOk] using hok
  have h401 : code ≠ 401 := by omega
  have h403 : code ≠ 403 := by omega
  have h429 : code ≠ 429 := by omega
  simp [fetchNextScreen, hguard, hdev, hkey, hok, h401, h403, h429,
    successPatch, updateState, nextScreenUrl]

lemma fetchNextScreen_imageFailure (st : Storage) (now code : Nat) (d : ScreenData)
    (img : ImageOutcome) (dev : Device)
    (hguard : backoffActive (getState st).retryAfter now = false)
    (hdev : (getState st).selectedDevice = some dev)
    (hkey : dev.api_key ≠ "")
    (hok : statusOk code = true)
    (himg : imageFails img = true) :
    fetchNextScreen st now (.resp code (some d)) img =
      { result := none,
        store := recordBackoff st (getState st).retryCount now,
        requests := [Request.meta (nextScreenUrl st), Request.image d.image_url] } := by
  have hcode : 200 ≤ code ∧ code ≤ 299 := by
    simpa [statusOk] using hok
  have h401 : code ≠ 401 := by omega
  have h403 : code ≠ 403 := by omega
  have h429 : code ≠ 429 := by omega
  cases img with
  | netError =>
    simp [fetchNextScreen, hguard, hdev, hkey, hok, h401, h403, h429, nextScreenUrl]
  | resp ok dataUrl =>
    simp only [imageFails] at himg
    simp [fetchNextScreen, hguard, hdev, hkey, hok, h401, h403, h429, himg, nextScreenUrl]

/-- Exhaustive path enumeration for `fetchImage`: every run matches exactly
one of the eight control-flow paths (backoff short-circuit, no device, empty
key, unauthorized, metadata failure, unchanged image, image-download failure,
full success). -/
lemma fetchImage_path (st : Storage) (fr : Bool) (now : Nat)
    (m : MetaOutcome) (i : ImageOutcome) :
    ((backoffActive (getState st).retryAfter now && !fr) = true ∧
      fetchImage st fr now m i =
        { result := cachedUrlOrNull (getState st).currentImage, store := st,
          requests := [] }) ∨
    ((getState st).selectedDevice = none ∧
      fetchImage st fr now m i = { result := none, store := st, requests := [] }) ∨
    (∃ dev, (getState st).selectedDevice = some dev ∧ dev.api_key = "" ∧
      fetchImage st fr now m i = { result := none, store := st, requests := [] }) ∨
    (∃ dev code body, (getState st).selectedDevice = some dev ∧ dev.api_key ≠ "" ∧
      m = .resp code body ∧ (code = 401 ∨ code = 403) ∧
      fetchImage st fr now m i =
        { result := none,
          store := applyUpdates { retryCount := some 0, retryAfter := some none } st,
          requests := [Request.meta (fetchImageUrl st dev)] }) ∨
    (∃ dev, (getState st).selectedDevice = some dev ∧ dev.api_key ≠ "" ∧
      metaFails m = true ∧
      fetchImage st fr now m i =
        { result := cachedUrlOrNull (getState st).currentImage,
          store := recordBackoff st (getState st).retryCount now,
          requests := [Request.meta (fetchImageUrl st dev)] }) ∨
    (∃ dev code d ci, (getState st).selectedDevice = some dev ∧ dev.api_key ≠ "" ∧
      m = .resp code (some d) ∧ statusOk code = true ∧
      (getState st).currentImage = some ci ∧
      unchangedCheck (getState st).currentImage fr d = true ∧
      fetchImage st fr now m i =
        { result := some ci.url,
          store := applyUpdates
            { refreshRate := some (optNatOr d.refresh_rate DEFAULT_REFRESH_RATE),
              lastFetch := some (some now),
              nextFetch := some (some (now + optNatOr d.refresh_rate DEFAULT_REFRESH_RATE * 1000)),
              retryCount := some 0, retryAfter := some none } st,
          requests := [Request.meta (fetchImageUrl st dev)] }) ∨
    (∃ dev code d, (getState st).selectedDevice = some dev ∧ dev.api_key ≠ "" ∧
      m = .resp code (some d) ∧ statusOk code = true ∧
      unchangedCheck (getState st).currentImage fr d = false ∧ imageFails i = true ∧
      fetchImage st fr now m i =
        { result := cachedUrlOrNull (getState st).currentImage,
          store := recordBackoff st (getState st).retryCount now,
          requests := [Request.meta (fetchImageUrl st dev), Request.image d.image_url] }) ∨
    (∃ dev code d u, (getState st).selectedDevice = some dev ∧ dev.api_key ≠ "" ∧
      m = .resp code (some d) ∧ statusOk code = true ∧
      unchangedCheck (getState st).currentImage fr d = false ∧ i = .resp true u ∧
      fetchImage st fr now m i =
        { result := some u,
          store :=
            if ! hasCompletedFirstSetup st (strOr dev.id "unknown")
            then markFirstSetupComplete (applyUpdates (successPatch d u now) st)
                   (strOr dev.id "unknown")
            else applyUpdates (successPatch d u now) st,
          requests := [Request.meta (fetchImageUrl st dev), Request.image d.image_url] }) := by
  by_cases hg : (backoffActive (getState st).retryAfter now && !fr) = true
  · exact Or.inl ⟨hg, by simp [fetchImage, hg]⟩
  · have hg' : (backoffActive (getState st).retryAfter now && !fr) = false := by
      simpa using hg
    cases hd : (getState st).selectedDevice with
    | none =>
      refine Or.inr (Or.inl ⟨rfl, ?_⟩)
      simp [fetchImage, hg', hd]
    | some dev =>
      by_cases hk : dev.api_key = ""
      · refine Or.inr (Or.inr (Or.inl ⟨dev, rfl, hk, ?_⟩))
        simp [fetchImage, hg', hd, hk]
      · cases m with
        | netError =>
          exact Or.inr (Or.inr (Or.inr (Or.inr (Or.inl ⟨dev, rfl, hk, rfl,
            fetchImage_metaFailure st fr now _ i dev hg' hd hk rfl⟩))))
        | resp code body =>
          rcases Decidable.em (code = 401 ∨ code = 403) with h1 | h1
          · exact Or.inr (Or.inr (Or.inr (Or.inl ⟨dev, code, body, rfl, hk, rfl, h1,
              fetchImage_unauthorized st fr now code body i dev hg' hd hk h1⟩)))
          · cases hmf : metaFails (.resp code body) with
            | true =>
              exact Or.inr (Or.inr (Or.inr (Or.inr (Or.inl ⟨dev, rfl, hk, rfl,
                fetchImage_metaFailure st fr now _ i dev hg' hd hk hmf⟩))))
            | false =>
              have h429 : code ≠ 429 := by
                intro hc
                subst hc
                simp only [metaFails] at hmf
                rw [if_neg h1] at hmf
                simp at hmf
              have hok : statusOk code = true := by
                by_contra hs
                simp only [metaFails] at hmf
                rw [if_neg h1, if_neg h429, if_neg hs] at hmf
                simp at hmf
              obtain ⟨d, rfl⟩ : ∃ d, body = some d := by
                cases body with
                | none =>
                  simp only [metaFails] at hmf
                  rw [if_neg h1, if_neg h429, if_pos hok] at hmf
                  simp at hmf
                | some d => exact ⟨d, rfl⟩
              cases hchg : unchangedCheck (getState st).currentImage fr d with
              | true =>
                obtain ⟨ci, hci⟩ : ∃ ci, (getState st).currentImage = some ci := by
                  cases hc : (getState st).currentImage with
                  | none => rw [hc] at hchg; simp [unchangedCheck] at hchg
                  | some ci => exact ⟨ci, rfl⟩
                exact Or.inr (Or.inr (Or.inr (Or.inr (Or.inr (Or.inl ⟨dev, code, d, ci,
                  rfl, hk, rfl, hok, hci, hchg,
                  fetchImage_unchanged st fr now code d i dev ci hg' hd hk hok hci hchg⟩)))))
              | false =>
                cases hif : imageFails i with
                | true =>
                  exact Or.inr (Or.inr (Or.inr (Or.inr (Or.inr (Or.inr (Or.inl ⟨dev, code, d,
                    rfl, hk, rfl, hok, hchg, rfl,
                    fetchImage_imageFailure st fr now code d i dev hg' hd hk hok hchg hif⟩))))))
                | false =>
                  obtain ⟨u, rfl⟩ : ∃ u, i = .resp true u := by
                    cases i with
                    | netError => simp [imageFails] at hif
                    | resp ok dataUrl =>
                      cases ok with
                      | false => simp [imageFails] at hif
                      | true => exact ⟨dataUrl, rfl⟩
                  exact Or.inr (Or.inr (Or.inr (Or.inr (Or.inr (Or.inr (Or.inr ⟨dev, code, d, u,
                    rfl, hk, rfl, hok, hchg, rfl,
                    fetchImage_success st fr now code d u dev hg' hd hk hok hchg⟩))))))

/-- Exhaustive path enumeration for `fetchNextScreen`: every run matches one
of the seven control-flow paths. -/
lemma fetchNextScreen_path (st : Storage) (now : Nat)
    (m : MetaOutcome) (i : ImageOutcome) :
    (backoffActive (getState st).retryAfter now = true ∧
      fetchNextScreen st now m i = { result := none, store := st, requests := [] }) ∨
    ((getState st).selectedDevice = none ∧
      fetchNextScreen st now m i = { result := none, store := st, requests := [] }) ∨
    (∃ dev, (getState st).selectedDevice = some dev ∧ dev.api_key = "" ∧
      fetchNextScreen st now m i = { result := none, store := st, requests := [] }) ∨
    (∃ dev code body, (getState st).selectedDevice = some dev ∧ dev.api_key ≠ "" ∧
      m = .resp code body ∧ (code = 401 ∨ code = 403) ∧
      fetchNextScreen st now m i =
        { result := none,
          store := applyUpdates { retryCount := some 0, retryAfter := some none } st,
          requests := [Request.meta (nextScreenUrl st)] }) ∨
    (∃ dev, (getState st).selectedDevice = some dev ∧ dev.api_key ≠ "" ∧
      metaFails m = true ∧
      fetchNextScreen st now m i =
        { result := none,
          store := recordBackoff st (getState st).retryCount now,
          requests := [Request.meta (nextScreenUrl st)] }) ∨
    (∃ dev code d, (getState st).selectedDevice = some dev ∧ dev.api_key ≠ "" ∧
      m = .resp code (some d) ∧ statusOk code = true ∧ imageFails i = true ∧
      fetchNextScreen st now m i =
        { result := none,
          store := recordBackoff st (getState st).retryCount now,
          requests := [Request.meta (nextScreenUrl st), Request.image d.image_url] }) ∨
    (∃ dev code d u, (getState st).selectedDevice = some dev ∧ dev.api_key ≠ "" ∧
      m = .resp code (some d) ∧ statusOk code = true ∧ i = .resp true u ∧
      fetchNextScreen st now m i =
        { result := some u,
          store := applyUpdates (successPatch d u now) st,
          requests := [Request.meta (nextScreenUrl st), Request.image d.image_url] }) := by
  by_cases hg : backoffActive (getState st).retryAfter now = true
  · exact Or.inl ⟨hg, by simp [fetchNextScreen, hg]⟩
  · have hg' : backoffActive (getState st).retryAfter now = false := by
      simpa using hg
    cases hd : (getState st).selectedDevice with
    | none =>
      refine Or.inr (Or.inl ⟨rfl, ?_⟩)
      simp [fetchNextScreen, hg', hd]
    | some dev =>
      by_cases hk : dev.api_key = ""
      · refine Or.inr (Or.inr (Or.inl ⟨dev, rfl, hk, ?_⟩))
        simp [fetchNextScreen, hg', hd, hk]
      · cases m with
        | netError =>
          exact Or.inr (Or.inr (Or.inr (Or.inr (Or.inl ⟨dev, rfl, hk, rfl,
            fetchNextScreen_metaFailure st now _ i dev hg' hd hk rfl⟩))))
        | resp code body =>
          rcases Decidable.em (code = 401 ∨ code = 403) with h1 | h1
          · exact Or.inr (Or.inr (Or.inr (Or.inl ⟨dev, code, body, rfl, hk, rfl, h1,
              fetchNextScreen_unauthorized st now code body i dev hg' hd hk h1⟩)))
          · cases hmf : metaFails (.resp code body) with
            | true =>
              exact Or.inr (Or.inr (Or.inr (Or.inr (Or.inl ⟨dev, rfl, hk, rfl,
                fetchNextScreen_metaFailure st now _ i dev hg' hd hk hmf⟩))))
            | false =>
              have h429 : code ≠ 429 := by
                intro hc
                subst hc
                simp only [metaFails] at hmf
                rw [if_neg h1] at hmf
                simp at hmf
              have hok : statusOk code = true := by
                by_contra hs
                simp only [metaFails] at hmf
                rw [if_neg h1, if_neg h429, if_neg hs] at hmf
                simp at hmf
              obtain ⟨d, rfl⟩ : ∃ d, body = some d := by
                cases body with
                | none =>
                  simp only [metaFails] at hmf
                  rw [if_neg h1, if_neg h429, if_pos hok] at hmf
                  simp at hmf
                | some d => exact ⟨d, rfl⟩
              cases hif : imageFails i with
              | true =>
                exact Or.inr (Or.inr (Or.inr (Or.inr (Or.inr (Or.inl ⟨dev, code, d,
                  rfl, hk, rfl, hok, rfl,
                  fetchNextScreen_imageFailure st now code d i dev hg' hd hk hok hif⟩)))))
              | false =>
                obtain ⟨u, rfl⟩ : ∃ u, i = .resp true u := by
                  cases i with
                  | netError => simp [imageFails] at hif
                  | resp ok dataUrl =>
                    cases ok with
                    | false => simp [imageFails] at hif
                    | true => exact ⟨dataUrl, rfl⟩
                exact Or.inr (Or.inr (Or.inr (Or.inr (Or.inr (Or.inr ⟨dev, code, d, u,
                  rfl, hk, rfl, hok, rfl,
                  fetchNextScreen_success st now code d u dev hg' hd hk hok⟩)))))

/-! ## Concrete fixtures for witnesses and counterexamples -/

/-- A concrete device. -/
def demoDevice : Device where
  id := "dev-1"
  name := "Kitchen"
  api_key := "k-123"

/-- A concrete cached image (nonempty data URL). -/
def demoImage : CurrentImage where
  url := "data:image/png;base64,AAA"
  originalUrl := "https://cdn.example/a.png"
  filename := "a.png"
  timestamp := 500

/-- A concrete store: device selected, image cached, no active backoff,
first setup already completed for the selected device. -/
def demoStore : Storage where
  environment := some .production
  devices := some [demoDevice]
  selectedDevice := some (some demoDevice)
  currentImage := some (some demoImage)
  lastFetch := some (some 500)
  nextFetch := some (some 30500)
  refreshRate := some 30
  retryCount := some 0
  retryAfter := some none
  firstSetupComplete := some (fun k => k == "dev-1")

/-- A store for a device that has never completed first setup (no cached
image, no first-setup map yet). -/
def freshStore : Storage where
  environment := some .production
  devices := some [demoDevice]
  selectedDevice := some (some demoDevice)

/-- The demo store with an active backoff window ending at epoch-ms 6000. -/
def backoffStore : Storage := { demoStore with retryAfter := some (some 6000) }

/-- The demo store with accumulated retry state. -/
def retryStore : Storage :=
  { demoStore with retryCount := some 5, retryAfter := some (some 9000) }

/-- A concrete metadata body naming a different image URL than the cached one. -/
def demoData : ScreenData where
  image_url := "https://cdn.example/b.png"
  filename := some "b.png"
  refresh_rate := some 60

/-- A concrete metadata body naming the already-cached image URL. -/
def sameData : ScreenData where
  image_url := "https://cdn.example/a.png"
  refresh_rate := some 60

/-! ## Claims -/

/-- C10: `updateState` writes only the fields present in the patch — every
stored field whose key is absent (`undefined`) in the patch keeps its prior
stored value, the record returned by `updateState` equals `getState()` after
the writes, the first-setup map is never touched, and in particular a
retry-only update leaves `currentImage`, `devices` and `selectedDevice`
unchanged. -/
theorem updateState_frame (u : StatePatch) (st : Storage) :
    (u.environment = none → ((updateState u st).1).environment = st.environment) ∧
    (u.devices = none → ((updateState u st).1).devices = st.devices) ∧
    (u.selectedDevice = none → ((updateState u st).1).selectedDevice = st.selectedDevice) ∧
    (u.currentImage = none → ((updateState u st).1).currentImage = st.currentImage) ∧
    (u.lastFetch = none → ((updateState u st).1).lastFetch = st.lastFetch) ∧
    (u.nextFetch = none → ((updateState u st).1).nextFetch = st.nextFetch) ∧
    (u.refreshRate = none → ((updateState u st).1).refreshRate = st.refreshRate) ∧
    (u.retryCount = none → ((updateState u st).1).retryCount = st.retryCount) ∧
    (u.retryAfter = none → ((updateState u st).1).retryAfter = st.retryAfter) ∧
    ((updateState u st).1).firstSetupComplete = st.firstSetupComplete ∧
    (updateState u st).2 = getState (updateState u st).1 ∧
    (∀ rc ra,
      ((updateState { retryCount := some rc, retryAfter := some ra } st).1).currentImage
          = st.currentImage ∧
      ((updateState { retryCount := some rc, retryAfter := some ra } st).1).devices
          = st.devices ∧
      ((updateState { retryCount := some rc, retryAfter := some ra } st).1).selectedDevice
          = st.selectedDevice) := by
  refine ⟨fun h => ?_, fun h => ?_, fun h => ?_, fun h => ?_, fun h => ?_, fun h => ?_,
    fun h => ?_, fun h => ?_, fun h => ?_, rfl, rfl, fun rc ra => ⟨rfl, rfl, rfl⟩⟩ <;>
  simp [updateState, applyUpdates, setIf, h]

/-- Witness for C10: the empty patch at the demo store. -/
theorem updateState_frame_witness :
    ({} : StatePatch).environment = none ∧
    ((updateState {} demoStore).1).environment = demoStore.environment :=
  ⟨rfl, (updateState_frame {} demoStore).1 rfl⟩

/-- C9 counterexample: `nextFetch = 0` is a present value (the claim's
"otherwise" case, remaining time floored at zero should format as "00:00"),
but the code's JavaScript guard `if (!nextFetch)` also fires on the number 0,
returning the "Unknown" placeholder. -/
theorem formatTimeRemaining_zero_cex :
    formatTimeRemaining (some 0) 5000 = "Unknown" ∧
    formatTimeRemainingSpec (some 0) 5000 = "00:00" :=
  ⟨rfl, rfl⟩

/-- C9 amended: `formatTimeRemaining` returns the "Unknown" placeholder when
`nextFetch` is absent or zero; for every nonzero `nextFetch` it formats the
remaining time `nextFetch - now`, floored at zero, as zero-padded `HH:MM:SS`
when at least one hour remains and as zero-padded `MM:SS` otherwise (that is,
it agrees with the spec-side formatter `formatTimeRemainingSpec`). -/
theorem formatTimeRemaining_matches_spec (nf now : Nat) :
    formatTimeRemaining none now = "Unknown" ∧
    formatTimeRemaining (some 0) now = "Unknown" ∧
    (nf ≠ 0 →
      formatTimeRemaining (some nf) now = formatTimeRemainingSpec (some nf) now) := by
  refine ⟨rfl, rfl, fun h => ?_⟩
  have h1 : (!numTruthy (some nf)) = false := by simp [numTruthy, h]
  have hmax : (max 0 ((nf : Int) - (now : Int))).toNat = nf - now := by omega
  simp only [formatTimeRemaining, h1, Bool.false_eq_true, if_false,
    Option.getD_some, hmax, formatTimeRemainingSpec]
  rcases Nat.lt_or_ge ((nf - now) / 1000) 3600 with h2 | h2
  · have h3 : ¬ (nf - now) / 1000 / 3600 > 0 := by omega
    have h4 : ¬ 3600 ≤ (nf - now) / 1000 := by omega
    have h5 : (nf - now) / 1000 % 3600 = (nf - now) / 1000 := Nat.mod_eq_of_lt h2
    simp only [h3, if_false, h4, h5]
  · have h3 : (nf - now) / 1000 / 3600 > 0 := by omega
    have h4 : 3600 ≤ (nf - now) / 1000 := h2
    simp only [h3, if_true, h4]

/-- Witness for the amended C9 at `nextFetch` 7400000 ms, `now` 200000 ms. -/
theorem formatTimeRemaining_matches_spec_witness :
    (7400000 ≠ 0) ∧
    formatTimeRemaining (some 7400000) 200000
      = formatTimeRemainingSpec (some 7400000) 200000 :=
  ⟨by decide, (formatTimeRemaining_matches_spec 7400000 200000).2.2 (by decide)⟩

/-- C5 counterexample: with a backoff window active (`retryAfter = 6000`,
`now = 1000 < 6000`, `forceRefresh = false`) and a cached image whose URL is
nonempty, `fetchNextScreen` issues no request and leaves state unchanged but
returns `null`, not the cached image URL the claim requires of both polling
reads (the `retryCount` conjunct shows no other path ran). -/
theorem backoff_window_next_screen_cex :
    (getState backoffStore).retryAfter = some 6000 ∧
    (1000 : Nat) < 6000 ∧
    (getState backoffStore).currentImage = some demoImage ∧
    demoImage.url ≠ "" ∧
    (fetchNextScreen backoffStore 1000 (.resp 200 (some demoData)) (.resp true "fresh")).requests
      = [] ∧
    (fetchNextScreen backoffStore 1000 (.resp 200 (some demoData)) (.resp true "fresh")).result
      = none :=
  ⟨rfl, by norm_num, rfl, by decide, rfl, rfl⟩

/-- C5 amended: when `retryAfter` is set, `now` is strictly before it and
`forceRefresh` is false, both polling reads issue no network request and leave
the stored state unchanged; `fetchImage` returns the cached image URL — `null`
when no image is cached or the cached URL is the empty string, per
`currentImage?.url || null` — while `fetchNextScreen` always returns `null`. -/
theorem backoff_window_short_circuit (st : Storage) (now t : Nat)
    (m : MetaOutcome) (i : ImageOutcome)
    (hra : (getState st).retryAfter = some t) (hlt : now < t) :
    (fetchImage st false now m i).requests = [] ∧
    (fetchImage st false now m i).store = st ∧
    (fetchImage st false now m i).result = cachedUrlOrNull (getState st).currentImage ∧
    (∀ ci, (getState st).currentImage = some ci → ci.url ≠ "" →
      (fetchImage st false now m i).result = some ci.url) ∧
    (fetchNextScreen st now m i).requests = [] ∧
    (fetchNextScreen st now m i).store = st ∧
    (fetchNextScreen st now m i).result = none := by
  have hb : backoffActive (getState st).retryAfter now = true := by
    rw [hra]
    simp only [backoffActive, Bool.and_eq_true, bne_iff_ne, ne_eq, decide_eq_true_eq]
    omega
  have hI : fetchImage st false now m i =
      { result := cachedUrlOrNull (getState st).currentImage, store := st, requests := [] } := by
    simp [fetchImage, hb]
  have hN : fetchNextScreen st now m i =
      { result := none, store := st, requests := [] } := by
    simp [fetchNextScreen, hb]
  refine ⟨by rw [hI], by rw [hI], by rw [hI], fun ci hci hne => ?_,
    by rw [hN], by rw [hN], by rw [hN]⟩
  rw [hI]
  simp [cachedUrlOrNull, hci, hne]

/-- Witness for the amended C5 at the backoff-window store. -/
theorem backoff_window_short_circuit_witness :
    (getState backoffStore).retryAfter = some 6000 ∧ (1000 : Nat) < 6000 ∧
    (fetchImage backoffStore false 1000 (.resp 200 (some demoData)) (.resp true "fresh")).result
      = cachedUrlOrNull (getState backoffStore).currentImage :=
  ⟨rfl, by norm_num,
    (backoff_window_short_circuit backoffStore 1000 6000 (.resp 200 (some demoData))
      (.resp true "fresh") rfl (by norm_num)).2.2.1⟩

/-- C2: on a 2xx metadata response whose `image_url` equals the cached
`currentImage.originalUrl` with `forceRefresh = false`, `fetchImage` downloads
no image bytes; only `lastFetch`, `nextFetch` and `refreshRate` are updated and
`retryCount`/`retryAfter` are reset to `0`/`null` (every other stored field,
including `currentImage`, is untouched), and the existing cached
`currentImage.url` is returned; a second identical call again downloads
nothing, returns the same URL, and the cached record stays identical. -/
theorem unchanged_image_skips_download (st : Storage) (now now2 code code2 : Nat)
    (d : ScreenData) (i i2 : ImageOutcome) (dev : Device) (ci : CurrentImage)
    (hguard : backoffActive (getState st).retryAfter now = false)
    (hdev : (getState st).selectedDevice = some dev)
    (hkey : dev.api_key ≠ "")
    (hok : statusOk code = true)
    (hok2 : statusOk code2 = true)
    (hci : (getState st).currentImage = some ci)
    (hurl : ci.originalUrl = d.image_url) :
    (∀ u, Request.image u ∉ (fetchImage st false now (.resp code (some d)) i).requests) ∧
    (fetchImage st false now (.resp code (some d)) i).result = some ci.url ∧
    (fetchImage st false now (.resp code (some d)) i).store =
      { st with refreshRate := some (optNatOr d.refresh_rate DEFAULT_REFRESH_RATE),
                lastFetch := some (some now),
                nextFetch := some (some (now + optNatOr d.refresh_rate DEFAULT_REFRESH_RATE * 1000)),
                retryCount := some 0,
                retryAfter := some none } ∧
    (getState (fetchImage st false now (.resp code (some d)) i).store).currentImage = some ci ∧
    (∀ u, Request.image u ∉
      (fetchImage (fetchImage st false now (.resp code (some d)) i).store
        false now2 (.resp code2 (some d)) i2).requests) ∧
    (fetchImage (fetchImage st false now (.resp code (some d)) i).store
        false now2 (.resp code2 (some d)) i2).result = some ci.url := by
  have hguard' : (backoffActive (getState st).retryAfter now && !false) = false := by
    simp [hguard]
  have hchg : unchangedCheck (getState st).currentImage false d = true := by
    rw [hci]; simp [unchangedCheck, hurl]
  have h1 := fetchImage_unchanged st false now code d i dev ci hguard' hdev hkey hok hci hchg
  have hci2 : (getState (fetchImage st false now (.resp code (some d)) i).store).currentImage
      = some ci := by
    rw [h1]; exact hci
  have hguard2 : (backoffActive
      (getState (fetchImage st false now (.resp code (some d)) i).store).retryAfter now2
        && !false) = false := by
    rw [h1]; rfl
  have hdev2 : (getState (fetchImage st false now (.resp code (some d)) i).store).selectedDevice
      = some dev := by
    rw [h1]; exact hdev
  have hchg2 : unchangedCheck
      (getState (fetchImage st false now (.resp code (some d)) i).store).currentImage false d
      = true := by
    rw [hci2]; simp [unchangedCheck, hurl]
  have h2 := fetchImage_unchanged (fetchImage st false now (.resp code (some d)) i).store
    false now2 code2 d i2 dev ci hguard2 hdev2 hkey hok2 hci2 hchg2
  refine ⟨fun u => by rw [h1]; simp, by rw [h1], by rw [h1]; rfl, hci2,
    fun u => by rw [h2]; simp, by rw [h2]⟩

/-- Witness for C2 at the demo store and a body repeating the cached URL. -/
theorem unchanged_image_skips_download_witness :
    statusOk 200 = true ∧
    (fetchImage demoStore false 1000 (.resp 200 (some sameData)) (.resp true "x")).result
      = some demoImage.url :=
  ⟨by decide,
    (unchanged_image_skips_download demoStore 1000 2000 200 200 sameData
      (.resp true "x") (.resp true "x") demoDevice demoImage rfl rfl (by decide)
      (by decide) (by decide) rfl rfl).2.1⟩

/-- C4 counterexample: `triggerSpecialFunction` on a 401 returns `false` but
does not clear the retry counters — `retryCount` stays 5 and `retryAfter`
stays set — contradicting the claim that every authenticated call clears them
on an unauthorized response. -/
theorem unauthorized_trigger_cex :
    (getState retryStore).retryCount = 5 ∧
    (getState retryStore).retryAfter = some 9000 ∧
    (triggerSpecialFunction retryStore (.resp 401 none)).1 = false ∧
    (getState (triggerSpecialFunction retryStore (.resp 401 none)).2.1).retryCount = 5 ∧
    (getState (triggerSpecialFunction retryStore (.resp 401 none)).2.1).retryAfter
      = some 9000 :=
  ⟨rfl, rfl, by decide, by decide, by decide⟩

/-- C4 amended: an HTTP 401 or 403 is treated as unauthorized and raises
nothing; `fetchImage` and `fetchNextScreen` clear the retry counters
(`retryCount = 0`, `retryAfter = null`) and return `null`, while
`triggerSpecialFunction` returns `false` but leaves the stored state —
including the retry counters — untouched. -/
theorem unauthorized_handling (st : Storage) (now code : Nat) (fr : Bool)
    (body : Option ScreenData) (i : ImageOutcome) (dev : Device)
    (hdev : (getState st).selectedDevice = some dev)
    (hkey : dev.api_key ≠ "")
    (hcode : code = 401 ∨ code = 403) :
    ((backoffActive (getState st).retryAfter now && !fr) = false →
      (fetchImage st fr now (.resp code body) i).result = none ∧
      (getState (fetchImage st fr now (.resp code body) i).store).retryCount = 0 ∧
      (getState (fetchImage st fr now (.resp code body) i).store).retryAfter = none) ∧
    (backoffActive (getState st).retryAfter now = false →
      (fetchNextScreen st now (.resp code body) i).result = none ∧
      (getState (fetchNextScreen st now (.resp code body) i).store).retryCount = 0 ∧
      (getState (fetchNextScreen st now (.resp code body) i).store).retryAfter = none) ∧
    (triggerSpecialFunction st (.resp code body)).1 = false ∧
    (triggerSpecialFunction st (.resp code body)).2.1 = st := by
  refine ⟨fun hg => ?_, fun hg => ?_, ?_, ?_⟩
  · have h := fetchImage_unauthorized st fr now code body i dev hg hdev hkey hcode
    rw [h]; exact ⟨rfl, rfl, rfl⟩
  · have h := fetchNextScreen_unauthorized st now code body i dev hg hdev hkey hcode
    rw [h]; exact ⟨rfl, rfl, rfl⟩
  · rcases hcode with rfl | rfl <;> simp [triggerSpecialFunction, hdev, hkey]
  · rcases hcode with rfl | rfl <;> simp [triggerSpecialFunction, hdev, hkey]

/-- Witness for the amended C4 at the accumulated-retry store (`now` past the
stored window so the reads are not suppressed). -/
theorem unauthorized_handling_witness :
    (backoffActive (getState retryStore).retryAfter 10000 && !false) = false ∧
    (fetchImage retryStore false 10000 (.resp 403 none) (.resp true "x")).result = none ∧
    (getState (fetchImage retryStore false 10000 (.resp 403 none) (.resp true "x")).store).retryCount
      = 0 :=
  ⟨by decide,
    ((unauthorized_handling retryStore 10000 403 false none (.resp true "x") demoDevice
      rfl (by decide) (Or.inr rfl)).1 (by decide)).1,
    ((unauthorized_handling retryStore 10000 403 false none (.resp true "x") demoDevice
      rfl (by decide) (Or.inr rfl)).1 (by decide)).2.1⟩

/-- C3 counterexample: on HTTP 429 with a cached image available (nonempty
URL), `fetchNextScreen` records the backoff (`retryCount` becomes 1) but
returns `null`, not the last-known cached value the claim requires of every
authenticated call. -/
theorem rate_limited_next_screen_cex :
    (getState demoStore).currentImage = some demoImage ∧
    demoImage.url ≠ "" ∧
    (fetchNextScreen demoStore 1000 (.resp 429 none) (.resp true "x")).result = none ∧
    (getState (fetchNextScreen demoStore 1000 (.resp 429 none) (.resp true "x")).store).retryCount
      = 1 :=
  ⟨rfl, by decide, by decide, by decide⟩

/-- C3 amended: an HTTP 429 increments `retryCount` and sets
`retryAfter = now + min(1000·2^newRetryCount, 300000)` in both polling reads;
`fetchImage` returns `currentImage?.url || null` — the cached URL whenever a
cached image with a nonempty URL exists — while `fetchNextScreen` returns
`null`. -/
theorem rate_limited_backoff (st : Storage) (now : Nat) (fr : Bool)
    (body : Option ScreenData) (i : ImageOutcome) (dev : Device)
    (hdev : (getState st).selectedDevice = some dev)
    (hkey : dev.api_key ≠ "") :
    ((backoffActive (getState st).retryAfter now && !fr) = false →
      (getState (fetchImage st fr now (.resp 429 body) i).store).retryCount
        = (getState st).retryCount + 1 ∧
      (getState (fetchImage st fr now (.resp 429 body) i).store).retryAfter
        = some (now + min (1000 * 2 ^ ((getState st).retryCount + 1)) 300000) ∧
      (fetchImage st fr now (.resp 429 body) i).result
        = cachedUrlOrNull (getState st).currentImage ∧
      (∀ ci, (getState st).currentImage = some ci → ci.url ≠ "" →
        (fetchImage st fr now (.resp 429 body) i).result = some ci.url)) ∧
    (backoffActive (getState st).retryAfter now = false →
      (getState (fetchNextScreen st now (.resp 429 body) i).store).retryCount
        = (getState st).retryCount + 1 ∧
      (getState (fetchNextScreen st now (.resp 429 body) i).store).retryAfter
        = some (now + min (1000 * 2 ^ ((getState st).retryCount + 1)) 300000) ∧
      (fetchNextScreen st now (.resp 429 body) i).result = none) := by
  have hfail : metaFails (.resp 429 body) = true := by simp [metaFails]
  refine ⟨fun hg => ?_, fun hg => ?_⟩
  · have h := fetchImage_metaFailure st fr now (.resp 429 body) i dev hg hdev hkey hfail
    refine ⟨by rw [h]; rfl, by rw [h]; rfl, by rw [h], fun ci hci hne => ?_⟩
    rw [h]
    simp [cachedUrlOrNull, hci, hne]
  · have h := fetchNextScreen_metaFailure st now (.resp 429 body) i dev hg hdev hkey hfail
    exact ⟨by rw [h]; rfl, by rw [h]; rfl, by rw [h]⟩

/-- Witness for the amended C3 at the demo store (`retryCount` 0 becomes 1,
backoff `min(1000·2^1, 300000) = 2000`). -/
theorem rate_limited_backoff_witness :
    (backoffActive (getState demoStore).retryAfter 1000 && !false) = false ∧
    (getState (fetchImage demoStore false 1000 (.resp 429 none) (.resp true "x")).store).retryCount
      = (getState demoStore).retryCount + 1 :=
  ⟨by decide,
    ((rate_limited_backoff demoStore 1000 false none (.resp true "x") demoDevice rfl
      (by decide)).1 (by decide)).1⟩

/-- C1's failure condition for a `fetchImage` attempt: the call gets past the
backoff guard and the key check, and then either the metadata step fails
(network error, 429, other non-401/403 non-2xx, unparsable body) or the
download step runs and fails. -/
def attemptFailsImage (st : Storage) (fr : Bool) (now : Nat)
    (m : MetaOutcome) (i : ImageOutcome) : Bool :=
  !(backoffActive (getState st).retryAfter now && !fr) &&
  (match (getState st).selectedDevice with
   | none => false
   | some dev => dev.api_key != "") &&
  (metaFails m ||
    (match m with
     | .resp code (some d) =>
       statusOk code && !unchangedCheck (getState st).currentImage fr d && imageFails i
     | _ => false))

/-- C1's failure condition for a `fetchNextScreen` attempt. -/
def attemptFailsNext (st : Storage) (now : Nat)
    (m : MetaOutcome) (i : ImageOutcome) : Bool :=
  !(backoffActive (getState st).retryAfter now) &&
  (match (getState st).selectedDevice with
   | none => false
   | some dev => dev.api_key != "") &&
  (metaFails m ||
    (match m with
     | .resp code (some _) => statusOk code && imageFails i
     | _ => false))

/-- C1: for every failed attempt (HTTP 429 or a thrown/network-level error at
any step) in `fetchImage` and `fetchNextScreen`, the new `retryCount` is the
old one plus 1 and `retryAfter - now = min(1000·2^n, 300000)` where `n` is the
post-increment count (so the delay saturates at 300000 ms, e.g. `n = 9` gives
`min(512000, 300000) = 300000`); moreover over all outcomes `retryCount` never
decreases except by a reset to 0, which only happens when the metadata
response was unauthorized (401/403) or 2xx. -/
theorem backoff_formula (st : Storage) (fr : Bool) (now : Nat)
    (m : MetaOutcome) (i : ImageOutcome) :
    (attemptFailsImage st fr now m i = true →
      (getState (fetchImage st fr now m i).store).retryCount
        = (getState st).retryCount + 1 ∧
      (getState (fetchImage st fr now m i).store).retryAfter
        = some (now + min (1000 * 2 ^ ((getState st).retryCount + 1)) 300000)) ∧
    (attemptFailsNext st now m i = true →
      (getState (fetchNextScreen st now m i).store).retryCount
        = (getState st).retryCount + 1 ∧
      (getState (fetchNextScreen st now m i).store).retryAfter
        = some (now + min (1000 * 2 ^ ((getState st).retryCount + 1)) 300000)) ∧
    ((getState (fetchImage st fr now m i).store).retryCount
        = (getState st).retryCount + 1 ∨
     (getState (fetchImage st fr now m i).store).retryCount = (getState st).retryCount ∨
     ((getState (fetchImage st fr now m i).store).retryCount = 0 ∧
       ∃ code body, m = .resp code body ∧
         (code = 401 ∨ code = 403 ∨ statusOk code = true))) ∧
    ((getState (fetchNextScreen st now m i).store).retryCount
        = (getState st).retryCount + 1 ∨
     (getState (fetchNextScreen st now m i).store).retryCount = (getState st).retryCount ∨
     ((getState (fetchNextScreen st now m i).store).retryCount = 0 ∧
       ∃ code body, m = .resp code body ∧
         (code = 401 ∨ code = 403 ∨ statusOk code = true))) := by
  refine ⟨fun h => ?_, fun h => ?_, ?_, ?_⟩
  · simp only [attemptFailsImage, Bool.and_eq_true, Bool.or_eq_true] at h
    obtain ⟨⟨hg, hdv⟩, hfail⟩ := h
    have hg' : (backoffActive (getState st).retryAfter now && !fr) = false := by
      cases hb : (backoffActive (getState st).retryAfter now && !fr) with
      | false => rfl
      | true => rw [hb] at hg; simp at hg
    cases hd : (getState st).selectedDevice with
    | none => rw [hd] at hdv; simp at hdv
    | some dev =>
      rw [hd] at hdv
      have hk : dev.api_key ≠ "" := by simpa using hdv
      rcases hfail with hmf | himgf
      · have h := fetchImage_metaFailure st fr now m i dev hg' hd hk hmf
        rw [h]; exact ⟨rfl, rfl⟩
      · cases m with
        | netError => simp at himgf
        | resp code body =>
          cases body with
          | none => simp at himgf
          | some d =>
            simp only [Bool.and_eq_true] at himgf
            obtain ⟨⟨hok, hnc⟩, hif⟩ := himgf
            have hnc' : unchangedCheck (getState st).currentImage fr d = false := by
              simpa using hnc
            have h := fetchImage_imageFailure st fr now code d i dev hg' hd hk hok hnc' hif
            rw [h]; exact ⟨rfl, rfl⟩
  · simp only [attemptFailsNext, Bool.and_eq_true, Bool.or_eq_true] at h
    obtain ⟨⟨hg, hdv⟩, hfail⟩ := h
    have hg' : backoffActive (getState st).retryAfter now = false := by
      cases hb : backoffActive (getState st).retryAfter now with
      | false => rfl
      | true => rw [hb] at hg; simp at hg
    cases hd : (getState st).selectedDevice with
    | none => rw [hd] at hdv; simp at hdv
    | some dev =>
      rw [hd] at hdv
      have hk : dev.api_key ≠ "" := by simpa using hdv
      rcases hfail with hmf | himgf
      · have h := fetchNextScreen_metaFailure st now m i dev hg' hd hk hmf
        rw [h]; exact ⟨rfl, rfl⟩
      · cases m with
        | netError => simp at himgf
        | resp code body =>
          cases body with
          | none => simp at himgf
          | some d =>
            simp only [Bool.and_eq_true] at himgf
            obtain ⟨hok, hif⟩ := himgf
            have h := fetchNextScreen_imageFailure st now code d i dev hg' hd hk hok hif
            rw [h]; exact ⟨rfl, rfl⟩
  · rcases fetchImage_path st fr now m i with
      ⟨_, hEq⟩ | ⟨_, hEq⟩ | ⟨dev, _, _, hEq⟩ | ⟨dev, code, body, _, _, hm, hcode, hEq⟩ |
      ⟨dev, _, _, _, hEq⟩ | ⟨dev, code, d, ci, _, _, hm, hok, _, _, hEq⟩ |
      ⟨dev, code, d, _, _, hm, hok, _, _, hEq⟩ | ⟨dev, code, d, u, _, _, hm, hok, _, _, hEq⟩
    · right; left; rw [hEq]
    · right; left; rw [hEq]
    · right; left; rw [hEq]
    · right; right
      refine ⟨by rw [hEq]; rfl, code, body, hm, ?_⟩
      rcases hcode with h | h
      · exact Or.inl h
      · exact Or.inr (Or.inl h)
    · left; rw [hEq]; rfl
    · right; right
      exact ⟨by rw [hEq]; rfl, code, some d, hm, Or.inr (Or.inr hok)⟩
    · left; rw [hEq]; rfl
    · right; right
      refine ⟨?_, code, some d, hm, Or.inr (Or.inr hok)⟩
      rw [hEq]
      cases hb : hasCompletedFirstSetup st (strOr dev.id "unknown") <;>
        simp [hb, markFirstSetupComplete, getState, applyUpdates, setIf, successPatch]
  · rcases fetchNextScreen_path st now m i with
      ⟨_, hEq⟩ | ⟨_, hEq⟩ | ⟨dev, _, _, hEq⟩ | ⟨dev, code, body, _, _, hm, hcode, hEq⟩ |
      ⟨dev, _, _, _, hEq⟩ | ⟨dev, code, d, _, _, hm, hok, _, hEq⟩ |
      ⟨dev, code, d, u, _, _, hm, hok, _, hEq⟩
    · right; left; rw [hEq]
    · right; left; rw [hEq]
    · right; left; rw [hEq]
    · right; right
      refine ⟨by rw [hEq]; rfl, code, body, hm, ?_⟩
      rcases hcode with h | h
      · exact Or.inl h
      · exact Or.inr (Or.inl h)
    · left; rw [hEq]; rfl
    · left; rw [hEq]; rfl
    · right; right
      exact ⟨by rw [hEq]; rfl, code, some d, hm, Or.inr (Or.inr hok)⟩

/-- Witness for C1: a 429 at the demo store increments 0 to 1 and records a
2000 ms backoff in both reads. -/
theorem backoff_formula_witness :
    attemptFailsImage demoStore false 1000 (.resp 429 none) (.resp true "x") = true ∧
    (getState (fetchImage demoStore false 1000 (.resp 429 none) (.resp true "x")).store).retryAfter
      = some (1000 + min (1000 * 2 ^ ((getState demoStore).retryCount + 1)) 300000) ∧
    attemptFailsNext demoStore 1000 (.resp 429 none) (.resp true "x") = true ∧
    (getState (fetchNextScreen demoStore 1000 (.resp 429 none) (.resp true "x")).store).retryCount
      = (getState demoStore).retryCount + 1 :=
  ⟨by decide,
    ((backoff_formula demoStore false 1000 (.resp 429 none) (.resp true "x")).1 (by decide)).2,
    by decide,
    ((backoff_formula demoStore false 1000 (.resp 429 none) (.resp true "x")).2.1 (by decide)).1⟩

/-- The full-success condition of `fetchImage`'s download path ("that call
succeeds" in the first-setup claim, spec §4.2 step 6): 2xx metadata with a
parsed body, not the unchanged-image shortcut, and a successful image
download and store. -/
def fetchImageDownloadSucceeds (st : Storage) (fr : Bool)
    (m : MetaOutcome) (i : ImageOutcome) : Bool :=
  match m with
  | .resp code (some d) =>
    statusOk code && !unchangedCheck (getState st).currentImage fr d &&
      (match i with | .resp true _ => true | _ => false)
  | _ => false

lemma downloadSucceeds_false_of_metaFails (st : Storage) (fr : Bool)
    (m : MetaOutcome) (i : ImageOutcome) (hm : metaFails m = true) :
    fetchImageDownloadSucceeds st fr m i = false := by
  cases m with
  | netError => rfl
  | resp code body =>
    cases body with
    | none => rfl
    | some d =>
      simp only [metaFails] at hm
      rcases Decidable.em (code = 401 ∨ code = 403) with h1 | h1
      · rw [if_pos h1] at hm; simp at hm
      · rw [if_neg h1] at hm
        by_cases h2 : code = 429
        · subst h2
          simp [fetchImageDownloadSucceeds, statusOk]
        · rw [if_neg h2] at hm
          by_cases hs : statusOk code = true
          · rw [if_pos hs] at hm; simp at hm
          · have hs' : statusOk code = false := by
              cases hb : statusOk code with
              | false => rfl
              | true => exact absurd hb hs
            simp [fetchImageDownloadSucceeds, hs']

/-- C6: while `firstSetupComplete` is not true for the selected device id,
`fetchImage` routes the metadata request to the generate/display endpoint
(`/api/display`) instead of the current-screen endpoint; the flag becomes true
exactly when that call succeeds (completes the download path and stores the
image, spec §4.2 step 6); the flag never becomes unset by a fetch; and once it
is true the metadata request targets the standard `/api/current_screen`
endpoint. -/
theorem first_setup_routing (st : Storage) (fr : Bool) (now : Nat)
    (m : MetaOutcome) (i : ImageOutcome) (dev : Device)
    (hguard : (backoffActive (getState st).retryAfter now && !fr) = false)
    (hdev : (getState st).selectedDevice = some dev)
    (hkey : dev.api_key ≠ "") :
    (hasCompletedFirstSetup st (strOr dev.id "unknown") = false →
      (fetchImage st fr now m i).requests.head?
        = some (.meta (getBaseUrl (getState st).environment ++ "/api/display"))) ∧
    (hasCompletedFirstSetup st (strOr dev.id "unknown") = true →
      (fetchImage st fr now m i).requests.head?
        = some (.meta (getApiUrl (getState st).environment))) ∧
    hasCompletedFirstSetup (fetchImage st fr now m i).store (strOr dev.id "unknown")
      = (hasCompletedFirstSetup st (strOr dev.id "unknown")
          || fetchImageDownloadSucceeds st fr m i) ∧
    (∀ dId, hasCompletedFirstSetup st dId = true →
      hasCompletedFirstSetup (fetchImage st fr now m i).store dId = true) := by
  rcases fetchImage_path st fr now m i with
    ⟨hgt, _⟩ | ⟨hnone, _⟩ | ⟨dev', hsd, hk', _⟩ |
    ⟨dev', code, body, hsd, hk', hm, hcode, hEq⟩ |
    ⟨dev', hsd, hk', hmf, hEq⟩ |
    ⟨dev', code, d, ci, hsd, hk', hm, hok, hci, hchg, hEq⟩ |
    ⟨dev', code, d, hsd, hk', hm, hok, hchg, hif, hEq⟩ |
    ⟨dev', code, d, u, hsd, hk', hm, hok, hchg, hi, hEq⟩
  · rw [hguard] at hgt; simp at hgt
  · rw [hdev] at hnone; simp at hnone
  · rw [hdev] at hsd; injection hsd with h; rw [← h] at hk'; exact absurd hk' hkey
  · rw [hdev] at hsd; injection hsd with h; subst h
    subst hm
    have hsucc : fetchImageDownloadSucceeds st fr (.resp code body) i = false := by
      rcases hcode with rfl | rfl <;> cases body <;> rfl
    refine ⟨fun hflag => ?_, fun hflag => ?_, ?_, fun dId hdId => ?_⟩
    · rw [hEq]; simp [fetchImageUrl, hflag]
    · rw [hEq]; simp [fetchImageUrl, hflag]
    · rw [hEq, hsucc]; simp [hasCompletedFirstSetup, applyUpdates]
    · rw [hEq]; exact hdId
  · rw [hdev] at hsd; injection hsd with h; subst h
    have hsucc := downloadSucceeds_false_of_metaFails st fr m i hmf
    refine ⟨fun hflag => ?_, fun hflag => ?_, ?_, fun dId hdId => ?_⟩
    · rw [hEq]; simp [fetchImageUrl, hflag]
    · rw [hEq]; simp [fetchImageUrl, hflag]
    · rw [hEq, hsucc]; simp [hasCompletedFirstSetup, recordBackoff, updateState, applyUpdates]
    · rw [hEq]; exact hdId
  · rw [hdev] at hsd; injection hsd with h; subst h
    subst hm
    have hsucc : fetchImageDownloadSucceeds st fr (.resp code (some d)) i = false := by
      simp [fetchImageDownloadSucceeds, hchg]
    refine ⟨fun hflag => ?_, fun hflag => ?_, ?_, fun dId hdId => ?_⟩
    · rw [hEq]; simp [fetchImageUrl, hflag]
    · rw [hEq]; simp [fetchImageUrl, hflag]
    · rw [hEq, hsucc]; simp [hasCompletedFirstSetup, applyUpdates]
    · rw [hEq]; exact hdId
  · rw [hdev] at hsd; injection hsd with h; subst h
    subst hm
    have hsucc : fetchImageDownloadSucceeds st fr (.resp code (some d)) i = false := by
      cases i with
      | netError => simp [fetchImageDownloadSucceeds]
      | resp ok dataUrl =>
        have hko : ok = false := by simpa [imageFails] using hif
        subst hko
        simp [fetchImageDownloadSucceeds]
    refine ⟨fun hflag => ?_, fun hflag => ?_, ?_, fun dId hdId => ?_⟩
    · rw [hEq]; simp [fetchImageUrl, hflag]
    · rw [hEq]; simp [fetchImageUrl, hflag]
    · rw [hEq, hsucc]; simp [hasCompletedFirstSetup, recordBackoff, updateState, applyUpdates]
    · rw [hEq]; exact hdId
  · rw [hdev] at hsd; injection hsd with h; subst h
    subst hm; subst hi
    have hsucc : fetchImageDownloadSucceeds st fr (.resp code (some d)) (.resp true u) = true := by
      simp [fetchImageDownloadSucceeds, hok, hchg]
    refine ⟨fun hflag => ?_, fun hflag => ?_, ?_, fun dId hdId => ?_⟩
    · rw [hEq]; simp [fetchImageUrl, hflag]
    · rw [hEq]; simp [fetchImageUrl, hflag]
    · rw [hEq, hsucc]
      cases hb : hasCompletedFirstSetup st (strOr dev.id "unknown") with
      | false => simp [hasCompletedFirstSetup, markFirstSetupComplete, applyUpdates]
      | true => exact hb
    · rw [hEq]
      cases hb : hasCompletedFirstSetup st (strOr dev.id "unknown") with
      | false =>
        simp only [Bool.not_false, if_true]
        by_cases hdd : dId = strOr dev.id "unknown"
        · simp [hasCompletedFirstSetup, markFirstSetupComplete, hdd]
        · simp only [hasCompletedFirstSetup, markFirstSetupComplete, Option.getD_some,
            if_neg hdd]
          simpa [hasCompletedFirstSetup] using hdId
      | true => exact hdId

/-- Witness for C6: a fresh store (no first-setup map) with a successful
download routes to `/api/display` and flips the flag. -/
theorem first_setup_routing_witness :
    hasCompletedFirstSetup freshStore (strOr demoDevice.id "unknown") = false ∧
    (fetchImage freshStore false 1000 (.resp 200 (some demoData)) (.resp true "fresh")).requests.head?
      = some (.meta (getBaseUrl (getState freshStore).environment ++ "/api/display")) ∧
    hasCompletedFirstSetup
      (fetchImage freshStore false 1000 (.resp 200 (some demoData)) (.resp true "fresh")).store
      (strOr demoDevice.id "unknown")
      = (hasCompletedFirstSetup freshStore (strOr demoDevice.id "unknown")
          || fetchImageDownloadSucceeds freshStore false (.resp 200 (some demoData))
               (.resp true "fresh")) :=
  ⟨by decide,
    (first_setup_routing freshStore false 1000 (.resp 200 (some demoData)) (.resp true "fresh")
      demoDevice rfl rfl (by decide)).1 (by decide),
    (first_setup_routing freshStore false 1000 (.resp 200 (some demoData)) (.resp true "fresh")
      demoDevice rfl rfl (by decide)).2.2.1⟩

/-- The scheduling triple (`nextFetch`, `lastFetch`, `refreshRate`) is not
touched by an operation. -/
def schedUnchanged (st st' : Storage) : Prop :=
  st'.nextFetch = st.nextFetch ∧ st'.lastFetch = st.lastFetch ∧
    st'.refreshRate = st.refreshRate

/-- The scheduling triple was written together as one update at time `now`
with `nextFetch = lastFetch + refreshRate * 1000`. -/
def schedWritten (now : Nat) (st' : Storage) : Prop :=
  ∃ rr, st'.refreshRate = some rr ∧ st'.lastFetch = some (some now) ∧
    st'.nextFetch = some (some (now + rr * 1000))

/-- The observable invariant: whenever `nextFetch` is set it equals
`lastFetch + refreshRate * 1000`. -/
def nextFetchInv (s : TrmnlState) : Prop :=
  ∀ nf, s.nextFetch = some nf →
    ∃ lf, s.lastFetch = some lf ∧ nf = lf + s.refreshRate * 1000

lemma inv_of_sched (st st' : Storage) (now : Nat)
    (h : schedUnchanged st st' ∨ schedWritten now st')
    (hinv : nextFetchInv (getState st)) : nextFetchInv (getState st') := by
  rcases h with ⟨h1, h2, h3⟩ | ⟨rr, h1, h2, h3⟩
  · intro nf hnf
    have hnf' : (getState st).nextFetch = some nf := by
      simpa [getState, h1] using hnf
    obtain ⟨lf, hlf, hrel⟩ := hinv nf hnf'
    refine ⟨lf, ?_, ?_⟩
    · simpa [getState, h2] using hlf
    · rw [hrel]
      have : (getState st').refreshRate = (getState st).refreshRate := by
        simp [getState, h3]
      rw [this]
  · intro nf hnf
    have hnf' : now + rr * 1000 = nf := by
      simpa [getState, h3] using hnf
    refine ⟨now, ?_, ?_⟩
    · simp [getState, h2]
    · have hr : (getState st').refreshRate = rr := by simp [getState, h1]
      rw [hr, ← hnf']

lemma triggerSpecialFunction_store (st : Storage) (m : MetaOutcome) :
    (triggerSpecialFunction st m).2.1 = st := by
  cases hd : (getState st).selectedDevice with
  | none => simp [triggerSpecialFunction, hd]
  | some dev' =>
    by_cases hk : dev'.api_key = ""
    · simp [triggerSpecialFunction, hd, hk]
    · cases m with
      | netError => simp [triggerSpecialFunction, hd, hk]
      | resp code body =>
        rcases Decidable.em (code = 401 ∨ code = 403) with h1 | h1
        · rcases h1 with rfl | rfl <;> simp [triggerSpecialFunction, hd, hk]
        · have h401 : code ≠ 401 := fun hc => h1 (Or.inl hc)
          have h403 : code ≠ 403 := fun hc => h1 (Or.inr hc)
          by_cases hsok : statusOk code = true
          · simp [triggerSpecialFunction, hd, hk, h401, h403, hsok]
          · have hsok' : statusOk code = false := by
              cases hb : statusOk code with
              | false => rfl
              | true => exact absurd hb hsok
            simp [triggerSpecialFunction, hd, hk, h401, h403, hsok']

lemma fetchDevices_sched (e : Environment) (st : Storage) (o : DevicesOutcome) :
    schedUnchanged st (fetchDevices e st o).2 := by
  cases o with
  | netError => exact ⟨rfl, rfl, rfl⟩
  | resp status body =>
    simp only [fetchDevices, updateState]
    split
    · exact ⟨rfl, rfl, rfl⟩
    · split
      · exact ⟨rfl, rfl, rfl⟩
      · cases body with
        | none => exact ⟨rfl, rfl, rfl⟩
        | some devices =>
          simp only
          split <;> exact ⟨rfl, rfl, rfl⟩

/-- C7: every state-mutating operation either leaves the scheduling fields
untouched or writes `nextFetch`, `lastFetch` and `refreshRate` together in one
update with `nextFetch = lastFetch + refreshRate * 1000` (where `lastFetch` is
the current time of that fetch); consequently both polling reads preserve the
invariant that a set `nextFetch` equals `lastFetch + refreshRate * 1000`. -/
theorem next_fetch_coherence (st : Storage) (fr : Bool) (now : Nat)
    (m : MetaOutcome) (i : ImageOutcome) (e : Environment) (o : DevicesOutcome)
    (dev : Device) :
    (schedUnchanged st (fetchImage st fr now m i).store ∨
      schedWritten now (fetchImage st fr now m i).store) ∧
    (schedUnchanged st (fetchNextScreen st now m i).store ∨
      schedWritten now (fetchNextScreen st now m i).store) ∧
    schedUnchanged st (selectDevice st dev) ∧
    schedUnchanged st (setEnvironment st e) ∧
    schedUnchanged st (fetchDevices e st o).2 ∧
    schedUnchanged st (triggerSpecialFunction st m).2.1 ∧
    (nextFetchInv (getState st) →
      nextFetchInv (getState (fetchImage st fr now m i).store)) ∧
    (nextFetchInv (getState st) →
      nextFetchInv (getState (fetchNextScreen st now m i).store)) := by
  have hImage : schedUnchanged st (fetchImage st fr now m i).store ∨
      schedWritten now (fetchImage st fr now m i).store := by
    rcases fetchImage_path st fr now m i with
      ⟨_, hEq⟩ | ⟨_, hEq⟩ | ⟨dev', _, _, hEq⟩ | ⟨dev', code, body, _, _, _, _, hEq⟩ |
      ⟨dev', _, _, _, hEq⟩ | ⟨dev', code, d, ci, _, _, _, _, _, _, hEq⟩ |
      ⟨dev', code, d, _, _, _, _, _, _, hEq⟩ | ⟨dev', code, d, u, _, _, _, _, _, _, hEq⟩
    · exact Or.inl (by rw [hEq]; exact ⟨rfl, rfl, rfl⟩)
    · exact Or.inl (by rw [hEq]; exact ⟨rfl, rfl, rfl⟩)
    · exact Or.inl (by rw [hEq]; exact ⟨rfl, rfl, rfl⟩)
    · exact Or.inl (by rw [hEq]; exact ⟨rfl, rfl, rfl⟩)
    · exact Or.inl (by rw [hEq]; exact ⟨rfl, rfl, rfl⟩)
    · exact Or.inr (by
        rw [hEq]
        exact ⟨optNatOr d.refresh_rate DEFAULT_REFRESH_RATE, rfl, rfl, rfl⟩)
    · exact Or.inl (by rw [hEq]; exact ⟨rfl, rfl, rfl⟩)
    · refine Or.inr (by
        rw [hEq]
        refine ⟨optNatOr d.refresh_rate DEFAULT_REFRESH_RATE, ?_⟩
        cases hb : hasCompletedFirstSetup st (strOr dev'.id "unknown") <;>
          exact ⟨rfl, rfl, rfl⟩)
  have hNext : schedUnchanged st (fetchNextScreen st now m i).store ∨
      schedWritten now (fetchNextScreen st now m i).store := by
    rcases fetchNextScreen_path st now m i with
      ⟨_, hEq⟩ | ⟨_, hEq⟩ | ⟨dev', _, _, hEq⟩ | ⟨dev', code, body, _, _, _, _, hEq⟩ |
      ⟨dev', _, _, _, hEq⟩ | ⟨dev', code, d, _, _, _, _, _, hEq⟩ |
      ⟨dev', code, d, u, _, _, _, _, _, hEq⟩
    · exact Or.inl (by rw [hEq]; exact ⟨rfl, rfl, rfl⟩)
    · exact Or.inl (by rw [hEq]; exact ⟨rfl, rfl, rfl⟩)
    · exact Or.inl (by rw [hEq]; exact ⟨rfl, rfl, rfl⟩)
    · exact Or.inl (by rw [hEq]; exact ⟨rfl, rfl, rfl⟩)
    · exact Or.inl (by rw [hEq]; exact ⟨rfl, rfl, rfl⟩)
    · exact Or.inl (by rw [hEq]; exact ⟨rfl, rfl, rfl⟩)
    · exact Or.inr (by
        rw [hEq]
        exact ⟨optNatOr d.refresh_rate DEFAULT_REFRESH_RATE, rfl, rfl, rfl⟩)
  have hTrig : schedUnchanged st (triggerSpecialFunction st m).2.1 := by
    rw [triggerSpecialFunction_store]
    exact ⟨rfl, rfl, rfl⟩
  exact ⟨hImage, hNext, ⟨rfl, rfl, rfl⟩, ⟨rfl, rfl, rfl⟩, fetchDevices_sched e st o, hTrig,
    fun hinv => inv_of_sched st _ now hImage hinv,
    fun hinv => inv_of_sched st _ now hNext hinv⟩

/-- Witness for C7: the invariant holds at the demo store
(30500 = 500 + 30·1000) and is preserved by a failing fetch. -/
theorem next_fetch_coherence_witness :
    nextFetchInv (getState demoStore) ∧
    nextFetchInv
      (getState (fetchImage demoStore false 1000 (.resp 429 none) (.resp true "x")).store) := by
  have hinv : nextFetchInv (getState demoStore) := by
    intro nf hnf
    have h : (30500 : Nat) = nf := by
      simpa [getState, demoStore] using hnf
    subst h
    exact ⟨500, rfl, by decide⟩
  exact ⟨hinv,
    (next_fetch_coherence demoStore false 1000 (.resp 429 none) (.resp true "x")
      .production .netError demoDevice).2.2.2.2.2.2.1 hinv⟩

lemma fetchDevices_ok (e : Environment) (st : Storage) (status : Nat)
    (devices : List Device)
    (h401 : status ≠ 401) (h403 : status ≠ 403) (hok : statusOk status = true) :
    (fetchDevices e st (.resp status (some devices))).1 = some devices ∧
    (fetchDevices e st (.resp status (some devices))).2.devices = some devices := by
  cases hsel : st.selectedDevice.getD none with
  | none =>
    cases devices with
    | nil =>
      simp [fetchDevices, updateState, h401, h403, hok, applyUpdates, setIf, getState, hsel]
    | cons a as =>
      simp [fetchDevices, updateState, h401, h403, hok, applyUpdates, setIf, getState, hsel]
  | some dd =>
    simp [fetchDevices, updateState, h401, h403, hok, applyUpdates, setIf, getState, hsel]

/-- Helper for C8: `currentImage?.url || null` is `null` or the URL of the
image cached in the given post-state. -/
lemma cachedUrl_shape (st' : Storage) (ci : Option CurrentImage)
    (hpost : (getState st').currentImage = ci) :
    cachedUrlOrNull ci = none ∨
      ∃ c, (getState st').currentImage = some c ∧ cachedUrlOrNull ci = some c.url := by
  cases ci with
  | none => exact Or.inl rfl
  | some c =>
    by_cases hu : c.url = ""
    · exact Or.inl (by simp [cachedUrlOrNull, hu])
    · exact Or.inr ⟨c, hpost, by simp [cachedUrlOrNull, hu]⟩

/-- C8: the four public operations are total over every oracle outcome (any
HTTP status, malformed body, network failure, image-download failure) — no
exception crosses the boundary — and each resolves to `null`/`false` or a
cached value: the polling reads resolve to `null` or to the URL of the image
cached in the resulting state, `fetchDevices` resolves to `null` or to the
device list stored in the resulting state, `triggerSpecialFunction` to a
boolean. -/
theorem never_raises (st : Storage) (fr : Bool) (now : Nat)
    (m mn mt : MetaOutcome) (i i2 : ImageOutcome) (e : Environment) (o : DevicesOutcome) :
    ((fetchImage st fr now m i).result = none ∨
      ∃ ci, (getState (fetchImage st fr now m i).store).currentImage = some ci ∧
        (fetchImage st fr now m i).result = some ci.url) ∧
    ((fetchNextScreen st now mn i2).result = none ∨
      ∃ ci, (getState (fetchNextScreen st now mn i2).store).currentImage = some ci ∧
        (fetchNextScreen st now mn i2).result = some ci.url) ∧
    ((fetchDevices e st o).1 = none ∨
      (fetchDevices e st o).1 = some ((fetchDevices e st o).2.devices.getD [])) ∧
    ((triggerSpecialFunction st mt).1 = false ∨ (triggerSpecialFunction st mt).1 = true) := by
  refine ⟨?_, ?_, ?_, ?_⟩
  · rcases fetchImage_path st fr now m i with
      ⟨_, hEq⟩ | ⟨_, hEq⟩ | ⟨dev', _, _, hEq⟩ | ⟨dev', code, body, _, _, _, _, hEq⟩ |
      ⟨dev', _, _, _, hEq⟩ | ⟨dev', code, d, ci, _, _, _, _, hci, _, hEq⟩ |
      ⟨dev', code, d, _, _, _, _, _, _, hEq⟩ | ⟨dev', code, d, u, _, _, _, _, _, _, hEq⟩
    · rw [hEq]
      exact cachedUrl_shape st (getState st).currentImage rfl
    · rw [hEq]; exact Or.inl rfl
    · rw [hEq]; exact Or.inl rfl
    · rw [hEq]; exact Or.inl rfl
    · rw [hEq]
      exact cachedUrl_shape (recordBackoff st (getState st).retryCount now)
        (getState st).currentImage rfl
    · rw [hEq]
      exact Or.inr ⟨ci, hci, rfl⟩
    · rw [hEq]
      exact cachedUrl_shape (recordBackoff st (getState st).retryCount now)
        (getState st).currentImage rfl
    · rw [hEq]
      cases hb : hasCompletedFirstSetup st (strOr dev'.id "unknown") <;>
        simp only [hb, Bool.not_true, Bool.not_false, if_true, if_false] <;>
        exact Or.inr ⟨_, rfl, rfl⟩
  · rcases fetchNextScreen_path st now mn i2 with
      ⟨_, hEq⟩ | ⟨_, hEq⟩ | ⟨dev', _, _, hEq⟩ | ⟨dev', code, body, _, _, _, _, hEq⟩ |
      ⟨dev', _, _, _, hEq⟩ | ⟨dev', code, d, _, _, _, _, _, hEq⟩ |
      ⟨dev', code, d, u, _, _, _, _, _, hEq⟩
    · rw [hEq]; exact Or.inl rfl
    · rw [hEq]; exact Or.inl rfl
    · rw [hEq]; exact Or.inl rfl
    · rw [hEq]; exact Or.inl rfl
    · rw [hEq]; exact Or.inl rfl
    · rw [hEq]; exact Or.inl rfl
    · rw [hEq]; exact Or.inr ⟨_, rfl, rfl⟩
  · cases o with
    | netError =>
      by_cases hl : (st.devices.getD []).length > 0
      · exact Or.inr (by simp [fetchDevices, hl])
      · exact Or.inl (by simp [fetchDevices, hl])
    | resp status body =>
      rcases Decidable.em (status = 401 ∨ status = 403) with h1 | h1
      · by_cases hl : (st.devices.getD []).length > 0
        · refine Or.inr ?_
          rcases h1 with rfl | rfl <;> simp [fetchDevices, hl]
        · refine Or.inl ?_
          rcases h1 with rfl | rfl <;> simp [fetchDevices, hl]
      · have h401 : status ≠ 401 := fun hc => h1 (Or.inl hc)
        have h403 : status ≠ 403 := fun hc => h1 (Or.inr hc)
        by_cases hsok : statusOk status = true
        · cases body with
          | none =>
            by_cases hl : (st.devices.getD []).length > 0
            · exact Or.inr (by simp [fetchDevices, h401, h403, hsok, hl])
            · exact Or.inl (by simp [fetchDevices, h401, h403, hsok, hl])
          | some devices =>
            obtain ⟨hr, hd2⟩ := fetchDevices_ok e st status devices h401 h403 hsok
            refine Or.inr ?_
            rw [hr, hd2]
            rfl
        · have hsok' : statusOk status = false := by
            cases hb : statusOk status with
            | false => rfl
            | true => exact absurd hb hsok
          by_cases hl : (st.devices.getD []).length > 0
          · exact Or.inr (by
              cases body <;> simp [fetchDevices, h401, h403, hsok', hl])
          · exact Or.inl (by
              cases body <;> simp [fetchDevices, h401, h403, hsok', hl])
  · cases hb : (triggerSpecialFunction st mt).1 with
    | false => exact Or.inl rfl
    | true => exact Or.inr rfl

end Trmnl
